import Mathlib

/-!
Shallow embedding of the `glDynamicBuffer` class from `src/vis/Code/WebGL.js`
(repository Archie3d/Remotery, visualizer WebGL helper).

Modelling conventions:
* JS numbers used as sizes/counts are modelled as `Nat`; the scalar values
  stored in the CPU mirror are modelled as `Int` (no claim depends on
  float/byte value semantics, only on positions and lengths).
* The typed CPU array `this.cpuArray` is a `List Int`.  Before the first
  `Resize` call (inside the constructor) the field is `undefined` in JS,
  modelled as `Option.none`.
* GPU-side effects are recorded as a trace (`List GLCall`), one constructor
  per WebGL entry point the class invokes.  Calls that transmit the CPU
  mirror (`bufferSubData`, `texImage2D` with a data argument) carry the
  transmitted data so that "upload of mirror contents" is observable.
* `assert(cond)` throwing, and `TypedArray.set` throwing a RangeError when
  the source is longer than the target, are modelled by the `thrown`
  constructor of `GLResult`, which carries the mutated-so-far state and the
  GPU calls issued before the throw (JS exceptions do not roll back field
  assignments).
* The byte size the GPU resource was last allocated/written with is tracked
  in the ghost field `gpuBytes` (set exactly when `bufferData` / `texImage2D`
  executes inside `Resize`), so size agreement between mirror and GPU
  resource is expressible.
* `nb_entries <<= 1` (JS 32-bit signed shift) is modelled twice: bit-faithfully
  by `wrap32` / `shiftLoop` (ToInt32 wraparound on `Int`, with `none` standing
  for a loop that never exits), and by the unbounded doubling `fitLoop`, used
  only where wraparound is provably not load-bearing; `shiftLoop_sim` proves
  the two agree whenever the doubling stays below the 2^31 wrap threshold,
  and `shiftLoop_diverges` captures true non-termination independently of any
  fuel bound.
-/

namespace WebGLDyn

/-- Element type constants accepted by `Resize` (gl.FLOAT / gl.BYTE). -/
inductive ElementType
  | float32
  | byte
deriving DecidableEq, Repr

/-- Enum `glDynamicBufferType`: Buffer = 1, Texture = 2. -/
inductive BufferType
  | buffer
  | texture
deriving DecidableEq, Repr

/-- GL calls issued by `glDynamicBuffer`, with the payloads the claims need. -/
inductive GLCall
  | createBuffer
  | bindBuffer
  | bufferData (sizeBytes : Nat)
  | bufferSubData (data : List Int)
  | createTexture
  | bindTexture
  | texParameteri
  | texImage2D (width : Nat) (data : List Int)
  | getAttribLocation
  | enableVertexAttribArray
  | vertexAttribPointer
  | vertexAttribDivisor
deriving DecidableEq, Repr

/-- A call is an upload of CPU mirror contents iff it carries a data array:
`bufferSubData` (Buffer backing) or `texImage2D` with data (Texture backing). -/
def isUpload : GLCall → Bool
  | .bufferSubData _ => true
  | .texImage2D _ _ => true
  | _ => false

/-- Number of mirror-content uploads in a call trace. -/
def countUploads (calls : List GLCall) : Nat :=
  (calls.filter isUpload).length

/-- The mutable fields of a `glDynamicBuffer` instance. -/
structure DynBuf where
  elementType : ElementType
  nbElements : Nat
  bufferType : BufferType
  dirty : Bool
  nbEntries : Nat
  cpuArray : Option (List Int)
  nbElementBytes : Nat
  nbBytes : Nat
  gpuBytes : Option Nat
deriving DecidableEq, Repr

/-- Result of a method call: normal return, or a thrown assertion/RangeError.
Both carry the object state at exit and the GL calls issued. -/
inductive GLResult
  | ok (b : DynBuf) (calls : List GLCall)
  | thrown (b : DynBuf) (calls : List GLCall)
deriving DecidableEq, Repr

/-- The object state at exit, whether the method returned or threw. -/
def resState : GLResult → DynBuf
  | .ok b _ => b
  | .thrown b _ => b

/-- The GL calls issued before exit, whether the method returned or threw. -/
def resCalls : GLResult → List GLCall
  | .ok _ calls => calls
  | .thrown _ calls => calls

/-- Did the method throw? -/
def isThrown : GLResult → Bool
  | .ok _ _ => false
  | .thrown _ _ => true

/-- Bytes per scalar element, as set by the `switch (this.elementType)` in
`Resize` (FLOAT: 4, BYTE: 1). -/
def elementBytes : ElementType → Nat
  | .float32 => 4
  | .byte => 1

/-- The "Create the GPU buffer" tail of `Resize` (WebGL.js lines 205-233).
Precondition: the CPU-array fields of `b` are already updated. -/
def resizeGPU (b : DynBuf) : GLResult :=
  match b.bufferType with
  | .buffer =>
      -- createBuffer; bindBuffer; bufferData(nbBytes) -- size only, no data
      .ok { b with gpuBytes := some b.nbBytes }
        [.createBuffer, .bindBuffer, .bufferData b.nbBytes]
  | .texture =>
      -- createTexture; bindTexture; 4 x texParameteri; two asserts;
      -- texImage2D(..., cpuArray) which transmits the mirror
      let pre : List GLCall :=
        [.createTexture, .bindTexture, .texParameteri, .texParameteri,
         .texParameteri, .texParameteri]
      if b.elementType = ElementType.byte then
        if b.nbElements = 1 then
          .ok { b with gpuBytes := some b.nbBytes }
            (pre ++ [.texImage2D b.nbEntries (b.cpuArray.getD [])])
        else
          .thrown b pre
      else
        .thrown b pre

/-- Method `glDynamicBuffer.Resize(nb_entries)` (WebGL.js lines 168-234).
Sets `nbEntries`, allocates a fresh zero-filled CPU array, copies the old
array into it when one exists (`TypedArray.set` throws a RangeError before
writing anything when the old array is longer), then allocates the GPU
resource.  The two-case `switch (this.elementType)` is total on the modelled
enum, so its `default: assert(false)` arm is unreachable. -/
def Resize (b : DynBuf) (nb_entries : Nat) : GLResult :=
  let eb := elementBytes b.elementType
  let newArr : List Int := List.replicate (b.nbElements * nb_entries) 0
  let nbBytes := eb * b.nbElements * nb_entries
  match b.cpuArray with
  | some old =>
      if old.length ≤ newArr.length then
        resizeGPU { b with nbEntries := nb_entries,
                           cpuArray := some (old ++ newArr.drop old.length),
                           nbElementBytes := eb, nbBytes := nbBytes }
      else
        -- cpuArray.set(old_array) throws: fields assigned so far persist,
        -- the fresh array stays all-zero, the GPU section never runs.
        .thrown { b with nbEntries := nb_entries, cpuArray := some newArr,
                         nbElementBytes := eb, nbBytes := nbBytes } []
  | none =>
      resizeGPU { b with nbEntries := nb_entries, cpuArray := some newArr,
                         nbElementBytes := eb, nbBytes := nbBytes }

/-- The `while (target_count > nb_entries) nb_entries <<= 1;` loop of
`ResizeToFitNextPow2`, idealized: unbounded doubling on `Nat` in place of the
wrapping 32-bit shift, and a `c = 0` guard that only makes the definition
total.  The bit-faithful model of the same loop is `shiftLoop` below;
`shiftLoop_sim` proves this idealization agrees with it exactly on the
domain where the doubling stays below 2^31 (outside that domain the JS loop
never terminates, see `shiftLoop_diverges`). -/
def fitLoop (target_count : Nat) (nb_entries : Nat) : Nat :=
  if h : nb_entries = 0 then 0
  else if target_count > nb_entries then fitLoop target_count (nb_entries * 2)
  else nb_entries
termination_by target_count - nb_entries
decreasing_by
  simp_wf
  omega

/-- Method `glDynamicBuffer.ResizeToFitNextPow2(target_count)` (lines 154-166),
over the idealized loop `fitLoop`. -/
def ResizeToFitNextPow2 (b : DynBuf) (target_count : Nat) : GLResult :=
  let nb_entries := fitLoop target_count b.nbEntries
  if nb_entries > b.nbEntries then Resize b nb_entries else .ok b []

/-- ToInt32 of ECMAScript: reduce into the signed 32-bit range
[-2147483648, 2147483648).  This is what `nb_entries <<= 1` applies to the
doubled value. -/
def wrap32 (z : Int) : Int :=
  (z + 2147483648) % 4294967296 - 2147483648

/-- Bit-faithful model of the `while (target_count > nb_entries)
nb_entries <<= 1;` loop: each iteration replaces the value by
`wrap32 (value * 2)` (the 32-bit signed shift).  The loop either exits with
the first value that is not below the target, or never exits; `fuel` bounds
the modelled iterations and `none` means the bound was exhausted.  Any
terminating run from a 32-bit start makes at most 33 iterations (after 32
shifts the value is `wrap32 (v * 2^32) = 0`, which is a fixed point), so
with fuel 64 `none` coincides with true divergence; `shiftLoop_diverges`
proves divergence without reference to any fuel bound. -/
def shiftLoop (fuel : Nat) (target_count : Int) (nb_entries : Int) :
    Option Int :=
  match fuel with
  | 0 => none
  | Nat.succ fuel =>
      if target_count > nb_entries then
        shiftLoop fuel target_count (wrap32 (nb_entries * 2))
      else
        some nb_entries

/-- Method `glDynamicBuffer.ResizeToFitNextPow2(target_count)` over the
bit-faithful 32-bit loop; `none` means the call never returns (the while
loop never exits). -/
def ResizeToFitNextPow2Int32 (b : DynBuf) (target_count : Nat) :
    Option GLResult :=
  (shiftLoop 64 (target_count : Int) (b.nbEntries : Int)).map
    (fun nb_entries =>
      if nb_entries > (b.nbEntries : Int) then Resize b nb_entries.toNat
      else .ok b [])

/-- Method `glDynamicBuffer.UploadData()` (lines 129-143): unconditional
whole-mirror upload; mutates no field. -/
def UploadData (b : DynBuf) : DynBuf × List GLCall :=
  match b.bufferType with
  | .buffer => (b, [.bindBuffer, .bufferSubData (b.cpuArray.getD [])])
  | .texture => (b, [.bindTexture, .texImage2D b.nbEntries (b.cpuArray.getD [])])

/-- Method `glDynamicBuffer.UploadDirtyData()` (lines 145-152). -/
def UploadDirtyData (b : DynBuf) : DynBuf × List GLCall :=
  if b.dirty then ({ b with dirty := false }, (UploadData b).2)
  else (b, [])

/-- Method `glDynamicBuffer.BindAsInstanceAttribute(program, attrib_name)`
(lines 113-127): asserts Buffer backing, then binds and configures the
per-instance attribute.  Program and attribute name do not affect the
modelled state or the shape of the trace. -/
def BindAsInstanceAttribute (b : DynBuf) : GLResult :=
  if b.bufferType = BufferType.buffer then
    .ok b [.bindBuffer, .getAttribLocation, .enableVertexAttribArray,
           .vertexAttribPointer, .vertexAttribDivisor]
  else
    .thrown b []

/-- The `glDynamicBuffer` constructor (lines 103-111): stores the
configuration (an omitted/undefined buffer type defaults to Buffer), clears
`dirty`, then calls `Resize(nb_entries)`.  Fields first assigned inside
`Resize` do not exist yet; their placeholders are never read before being
set. -/
def construct (element_type : ElementType) (nb_elements : Nat)
    (nb_entries : Nat) (buffer_type : Option BufferType) : GLResult :=
  Resize { elementType := element_type, nbElements := nb_elements,
           bufferType := buffer_type.getD BufferType.buffer, dirty := false,
           nbEntries := 0, cpuArray := none, nbElementBytes := 0,
           nbBytes := 0, gpuBytes := none } nb_entries

/-- The mirror-length invariant of the spec data model:
`mirror.length == elementsPerEntry * capacity`. -/
def mirrorLenOK (b : DynBuf) : Bool :=
  match b.cpuArray with
  | some arr => arr.length == b.nbElements * b.nbEntries
  | none => false

/-- One call of the public surface (beyond construction); payload-free
arguments are irrelevant to the modelled state. -/
inductive PublicOp
  | resizeFit (target_count : Nat)
  | upload
  | uploadDirty
  | bindAttr

/-- State transition of one public call (state at exit even on a throw). -/
def applyOp (b : DynBuf) : PublicOp → DynBuf
  | .resizeFit t => resState (ResizeToFitNextPow2 b t)
  | .upload => (UploadData b).1
  | .uploadDirty => (UploadDirtyData b).1
  | .bindAttr => resState (BindAsInstanceAttribute b)

/-- A small post-construction buffer state used to instantiate theorems:
Float32 entries of 3 elements, capacity 2, Buffer backing, mirror already
holding caller data. -/
def bufEx : DynBuf :=
  { elementType := .float32, nbElements := 3, bufferType := .buffer,
    dirty := false, nbEntries := 2,
    cpuArray := some [1, 2, 3, 4, 5, 6],
    nbElementBytes := 4, nbBytes := 24, gpuBytes := some 24 }

/-- The buffer of spec Scenario A/C after construction:
`Construct(Float32, 3, 4, InstanceAttributeBuffer)`. -/
def buf4 : DynBuf :=
  { elementType := .float32, nbElements := 3, bufferType := .buffer,
    dirty := false, nbEntries := 4,
    cpuArray := some (List.replicate 12 0),
    nbElementBytes := 4, nbBytes := 48, gpuBytes := some 48 }

/-- A post-construction lookup-texture buffer (Byte, arity 1, capacity 2). -/
def texEx : DynBuf :=
  { elementType := .byte, nbElements := 1, bufferType := .texture,
    dirty := false, nbEntries := 2,
    cpuArray := some [5, 7],
    nbElementBytes := 1, nbBytes := 2, gpuBytes := some 2 }

/-! ### Helper lemmas about the GPU phase of `Resize` -/

lemma resState_resizeGPU_dirty (b : DynBuf) :
    (resState (resizeGPU b)).dirty = b.dirty := by
  cases hb : b.bufferType <;> simp only [resizeGPU, hb] <;>
    (try split) <;> (try split) <;> simp [resState]

lemma resState_resizeGPU_nbEntries (b : DynBuf) :
    (resState (resizeGPU b)).nbEntries = b.nbEntries := by
  cases hb : b.bufferType <;> simp only [resizeGPU, hb] <;>
    (try split) <;> (try split) <;> simp [resState]

lemma resState_resizeGPU_cpuArray (b : DynBuf) :
    (resState (resizeGPU b)).cpuArray = b.cpuArray := by
  cases hb : b.bufferType <;> simp only [resizeGPU, hb] <;>
    (try split) <;> (try split) <;> simp [resState]

lemma resState_resizeGPU_nbElements (b : DynBuf) :
    (resState (resizeGPU b)).nbElements = b.nbElements := by
  cases hb : b.bufferType <;> simp only [resizeGPU, hb] <;>
    (try split) <;> (try split) <;> simp [resState]

lemma resizeGPU_countUploads_buffer (b : DynBuf)
    (h : b.bufferType = BufferType.buffer) :
    countUploads (resCalls (resizeGPU b)) = 0 := by
  simp [resizeGPU, h, resCalls, countUploads, isUpload]

/-! ### Helper lemmas about `Resize` -/

lemma Resize_dirty (b : DynBuf) (n : Nat) :
    (resState (Resize b n)).dirty = b.dirty := by
  unfold Resize
  cases hc : b.cpuArray with
  | none => rw [resState_resizeGPU_dirty]
  | some old =>
      simp only
      split
      · rw [resState_resizeGPU_dirty]
      · simp [resState]

lemma Resize_nbEntries (b : DynBuf) (n : Nat) :
    (resState (Resize b n)).nbEntries = n := by
  unfold Resize
  cases hc : b.cpuArray with
  | none => rw [resState_resizeGPU_nbEntries]
  | some old =>
      simp only
      split
      · rw [resState_resizeGPU_nbEntries]
      · simp [resState]

lemma Resize_nbElements (b : DynBuf) (n : Nat) :
    (resState (Resize b n)).nbElements = b.nbElements := by
  unfold Resize
  cases hc : b.cpuArray with
  | none => rw [resState_resizeGPU_nbElements]
  | some old =>
      simp only
      split
      · rw [resState_resizeGPU_nbElements]
      · simp [resState]

lemma Resize_countUploads_buffer (b : DynBuf) (n : Nat)
    (h : b.bufferType = BufferType.buffer) :
    countUploads (resCalls (Resize b n)) = 0 := by
  unfold Resize
  cases hc : b.cpuArray with
  | none => exact resizeGPU_countUploads_buffer _ h
  | some old =>
      simp only
      split
      · exact resizeGPU_countUploads_buffer _ h
      · simp [resCalls, countUploads]

lemma Resize_cpuArray_of_fits (b : DynBuf) (n : Nat) (old : List Int)
    (hold : b.cpuArray = some old)
    (hle : old.length ≤ b.nbElements * n) :
    (resState (Resize b n)).cpuArray
      = some (old ++ (List.replicate (b.nbElements * n) (0 : Int)).drop old.length) := by
  unfold Resize
  rw [hold]
  simp only [List.length_replicate]
  rw [if_pos hle, resState_resizeGPU_cpuArray]

lemma Resize_cpuArray_of_none (b : DynBuf) (n : Nat)
    (hnone : b.cpuArray = none) :
    (resState (Resize b n)).cpuArray
      = some (List.replicate (b.nbElements * n) (0 : Int)) := by
  unfold Resize
  rw [hnone]
  rw [resState_resizeGPU_cpuArray]

/-! ### Helper lemmas about `fitLoop` -/

lemma fitLoop_of_le (t c : Nat) (h : t ≤ c) : fitLoop t c = c := by
  rw [fitLoop]
  split
  · omega
  · rw [if_neg (by omega)]

lemma fitLoop_spec (d t c : Nat) (hd : t - c ≤ d) (hc : 0 < c) :
    t ≤ fitLoop t c ∧
      ∃ k, fitLoop t c = c * 2 ^ k ∧ ∀ j, j < k → c * 2 ^ j < t := by
  induction d generalizing c with
  | zero =>
      have htc : t ≤ c := by omega
      rw [fitLoop_of_le t c htc]
      exact ⟨htc, 0, by ring, by omega⟩
  | succ d ih =>
      by_cases hgt : t > c
      · have hrec := ih (c * 2) (by omega) (by omega)
        have hstep : fitLoop t c = fitLoop t (c * 2) := by
          rw [fitLoop]
          rw [dif_neg (by omega)]
          rw [if_pos hgt]
        obtain ⟨hle, k, hk, hmin⟩ := hrec
        refine ⟨by omega, k + 1, ?_, ?_⟩
        · rw [hstep, hk]
          ring
        · intro j hj
          cases j with
          | zero => simpa using hgt
          | succ j' =>
              have : c * 2 * 2 ^ j' < t := hmin j' (by omega)
              calc c * 2 ^ (j' + 1) = c * 2 * 2 ^ j' := by ring
                _ < t := this
      · have htc : t ≤ c := by omega
        rw [fitLoop_of_le t c htc]
        exact ⟨htc, 0, by ring, by omega⟩

lemma fitLoop_ge_self (t c : Nat) : c ≤ fitLoop t c := by
  rcases Nat.eq_zero_or_pos c with hc | hc
  · subst hc
    rw [fitLoop]
    simp
  · obtain ⟨-, k, hk, -⟩ := fitLoop_spec t t c (by omega) hc
    rw [hk]
    calc c = c * 1 := by ring
      _ ≤ c * 2 ^ k := Nat.mul_le_mul_left c Nat.one_le_two_pow

/-! ### Helper lemmas about the 32-bit loop model -/

lemma wrap32_lb (z : Int) : -2147483648 ≤ wrap32 z := by
  unfold wrap32
  omega

lemma wrap32_ub (z : Int) : wrap32 z < 2147483648 := by
  unfold wrap32
  omega

lemma wrap32_fixed (z : Int) (h1 : -2147483648 ≤ z) (h2 : z < 2147483648) :
    wrap32 z = z := by
  unfold wrap32
  omega

lemma wrap32_congr (a b : Int) (h : a % 4294967296 = b % 4294967296) :
    wrap32 a = wrap32 b := by
  unfold wrap32
  omega

lemma wrap32_modeq (z : Int) : wrap32 z ≡ z [ZMOD 4294967296] := by
  unfold Int.ModEq wrap32
  omega

lemma wrap32_mul (x y : Int) : wrap32 (wrap32 x * y) = wrap32 (x * y) :=
  wrap32_congr _ _ ((wrap32_modeq x).mul_right y)

lemma shiftLoop_diverges (t : Int) :
    ∀ (fuel : Nat) (v : Int),
      (∀ j : Nat, wrap32 (v * 2 ^ j) < t) →
      -2147483648 ≤ v → v < 2147483648 →
      shiftLoop fuel t v = none := by
  intro fuel
  induction fuel with
  | zero =>
      intro v hv h1 h2
      rfl
  | succ fuel ih =>
      intro v hv h1 h2
      have h0 : v < t := by
        have h := hv 0
        rwa [pow_zero, mul_one, wrap32_fixed v h1 h2] at h
      simp only [shiftLoop]
      rw [if_pos h0]
      refine ih (wrap32 (v * 2)) ?_ (wrap32_lb _) (wrap32_ub _)
      intro j
      have harg : v * 2 * (2 : Int) ^ j = v * 2 ^ (j + 1) := by ring
      rw [wrap32_mul, harg]
      exact hv (j + 1)

lemma shiftLoop_sim :
    ∀ (fuel t c j : Nat),
      0 < c → j < fuel → t ≤ c * 2 ^ j → c * 2 ^ j < 2147483648 →
      shiftLoop fuel (t : Int) (c : Int)
        = some ((fitLoop t c : Nat) : Int) := by
  intro fuel
  induction fuel with
  | zero =>
      intro t c j hc hj ht hb
      omega
  | succ fuel ih =>
      intro t c j hc hj ht hb
      simp only [shiftLoop]
      by_cases hlt : c < t
      · rw [if_pos (by exact_mod_cast hlt : (t : Int) > (c : Int))]
        have hj1 : 1 ≤ j := by
          rcases Nat.eq_zero_or_pos j with h0 | h1
          · subst h0
            simp only [pow_zero, mul_one] at ht
            omega
          · exact h1
        have hpow : c * 2 * 2 ^ (j - 1) = c * 2 ^ j := by
          have h2 : 2 * 2 ^ (j - 1) = 2 ^ j := by
            conv_rhs => rw [show j = (j - 1) + 1 by omega]
            rw [pow_succ]
            ring
          calc c * 2 * 2 ^ (j - 1) = c * (2 * 2 ^ (j - 1)) := by ring
            _ = c * 2 ^ j := by rw [h2]
        have hmono : c * 2 ≤ c * 2 ^ j := by
          have h1 : (1 : Nat) ≤ 2 ^ (j - 1) := Nat.one_le_two_pow
          calc c * 2 = c * 2 * 1 := by ring
            _ ≤ c * 2 * 2 ^ (j - 1) := Nat.mul_le_mul_left _ h1
            _ = c * 2 ^ j := hpow
        have hn : c * 2 < 2147483648 := lt_of_le_of_lt hmono hb
        have hwrap : wrap32 ((c : Int) * 2) = ((c * 2 : Nat) : Int) := by
          rw [wrap32_fixed _ (by omega) (by omega)]
          push_cast
          ring
        rw [hwrap]
        have hfit : fitLoop t c = fitLoop t (c * 2) := by
          rw [fitLoop]
          rw [dif_neg (by omega : ¬ c = 0)]
          rw [if_pos (by omega : t > c)]
        rw [hfit]
        exact ih t (c * 2) (j - 1) (by omega) (by omega)
          (by rw [hpow]; exact ht) (by rw [hpow]; exact hb)
      · rw [if_neg (by exact_mod_cast hlt : ¬ (t : Int) > (c : Int))]
        rw [fitLoop_of_le t c (by omega)]

lemma RTFNP2Int32_agrees (b : DynBuf) (t : Nat) (hC : 0 < b.nbEntries)
    (hreach : ∃ j, t ≤ b.nbEntries * 2 ^ j ∧
      b.nbEntries * 2 ^ j < 2 ^ 31) :
    ResizeToFitNextPow2Int32 b t = some (ResizeToFitNextPow2 b t) := by
  obtain ⟨j, hjt, hjb⟩ := hreach
  rw [show (2 : Nat) ^ 31 = 2147483648 from by norm_num] at hjb
  have hj64 : j < 64 := by
    by_contra hcon
    push_neg at hcon
    have h1 : (2 : Nat) ^ 31 ≤ 2 ^ j :=
      Nat.pow_le_pow_right (by norm_num) (by omega)
    have h2 : 2 ^ j ≤ b.nbEntries * 2 ^ j := Nat.le_mul_of_pos_left _ hC
    have h3 : (2 : Nat) ^ 31 = 2147483648 := by norm_num
    omega
  have hsim := shiftLoop_sim 64 t b.nbEntries j hC hj64 hjt hjb
  unfold ResizeToFitNextPow2Int32
  rw [hsim]
  simp only [Option.map_some']
  by_cases hgt : fitLoop t b.nbEntries > b.nbEntries
  · have hres : ResizeToFitNextPow2 b t = Resize b (fitLoop t b.nbEntries) := by
      simp [ResizeToFitNextPow2, hgt]
    rw [hres,
      if_pos (by exact_mod_cast hgt :
        ((fitLoop t b.nbEntries : Nat) : Int) > (b.nbEntries : Int))]
    simp
  · have hres : ResizeToFitNextPow2 b t = GLResult.ok b [] := by
      simp [ResizeToFitNextPow2, hgt]
    rw [hres,
      if_neg (by exact_mod_cast hgt :
        ¬ ((fitLoop t b.nbEntries : Nat) : Int) > (b.nbEntries : Int))]

lemma RTFNP2_cases (b : DynBuf) (t : Nat) :
    ResizeToFitNextPow2 b t = Resize b (fitLoop t b.nbEntries) ∨
      ResizeToFitNextPow2 b t = GLResult.ok b [] := by
  by_cases h : fitLoop t b.nbEntries > b.nbEntries
  · left
    simp [ResizeToFitNextPow2, h]
  · right
    simp [ResizeToFitNextPow2, h]

/-! ### Claim theorems -/

/-- Claim C1, counterexample: on a LookupTexture-backed buffer, a growth
resize from capacity 2 to 4 does issue an upload of the mirror contents to
the new GPU resource (the `texImage2D` allocation call transmits the CPU
array), contradicting the claim that no upload occurs in both backing
modes. -/
theorem C1_counterexample :
    texEx.nbEntries < 4 ∧
      countUploads (resCalls (Resize texEx 4)) = 1 ∧
      GLCall.texImage2D 4 [5, 7, 0, 0] ∈ resCalls (Resize texEx 4) := by
  decide

/-- Claim C1 (amended): a growth resize (directly or via
`ResizeToFitNextPow2`) leaves the dirty flag unchanged in both backing
modes; in InstanceAttributeBuffer mode it issues no upload of the mirror
contents (the new GPU buffer is allocated by byte size only).  In
LookupTexture mode the texture allocation call itself transmits the mirror
(see the counterexample). -/
theorem C1_growth_resize (b : DynBuf) (n t : Nat) (hgrow : b.nbEntries < n) :
    (resState (Resize b n)).dirty = b.dirty ∧
      (b.bufferType = BufferType.buffer →
        countUploads (resCalls (Resize b n)) = 0) ∧
      (resState (ResizeToFitNextPow2 b t)).dirty = b.dirty ∧
      (b.bufferType = BufferType.buffer →
        countUploads (resCalls (ResizeToFitNextPow2 b t)) = 0) := by
  refine ⟨Resize_dirty b n, fun h => Resize_countUploads_buffer b n h, ?_, ?_⟩
  · rcases RTFNP2_cases b t with hr | hr <;> rw [hr]
    · exact Resize_dirty b _
    · rfl
  · intro h
    rcases RTFNP2_cases b t with hr | hr <;> rw [hr]
    · exact Resize_countUploads_buffer b _ h
    · rfl

/-- Witness for C1: instantiated at a concrete Buffer-mode buffer grown
from capacity 2 to 4. -/
theorem C1_witness :
    bufEx.nbEntries < 4 ∧
      ((resState (Resize bufEx 4)).dirty = bufEx.dirty ∧
        (bufEx.bufferType = BufferType.buffer →
          countUploads (resCalls (Resize bufEx 4)) = 0) ∧
        (resState (ResizeToFitNextPow2 bufEx 10)).dirty = bufEx.dirty ∧
        (bufEx.bufferType = BufferType.buffer →
          countUploads (resCalls (ResizeToFitNextPow2 bufEx 10)) = 0)) :=
  ⟨by decide, C1_growth_resize bufEx 4 10 (by decide)⟩

/-- Claim C2, counterexample: `Construct(Float32, 3, 4,
InstanceAttributeBuffer)` performs zero uploads of the mirror during
construction (the trace is exactly createBuffer, bindBuffer, and a
size-only `bufferData`), contradicting the claimed single initial upload. -/
theorem C2_counterexample :
    countUploads (resCalls (construct .float32 3 4 (some .buffer))) = 0 ∧
      resCalls (construct .float32 3 4 (some .buffer))
        = [GLCall.createBuffer, GLCall.bindBuffer, GLCall.bufferData 48] := by
  decide

/-- Claim C2 (amended): construction yields a zero-initialized mirror of
length `elementsPerEntry * initialCapacity` with `dirty = false` and a
freshly allocated GPU resource of matching byte size, but in
InstanceAttributeBuffer mode no upload of the mirror occurs during
construction (the buffer is allocated by size only); in LookupTexture mode
exactly one upload of the zero-filled mirror occurs (the allocating
`texImage2D` call transmits it).  In particular Scenario A yields a
12-element all-zero mirror and zero uploads. -/
theorem C2_construct :
    (∀ et ne cap, ∃ b, construct et ne cap (some BufferType.buffer)
        = GLResult.ok b [GLCall.createBuffer, GLCall.bindBuffer,
            GLCall.bufferData (elementBytes et * ne * cap)] ∧
      b.cpuArray = some (List.replicate (ne * cap) 0) ∧
      b.dirty = false ∧ b.nbEntries = cap ∧
      b.nbBytes = elementBytes et * ne * cap ∧
      b.gpuBytes = some b.nbBytes ∧
      countUploads (resCalls (construct et ne cap (some BufferType.buffer)))
        = 0) ∧
    (∀ cap, ∃ b calls, construct .byte 1 cap (some BufferType.texture)
        = GLResult.ok b calls ∧
      b.cpuArray = some (List.replicate cap 0) ∧
      b.dirty = false ∧ b.nbEntries = cap ∧
      countUploads calls = 1 ∧
      GLCall.texImage2D cap (List.replicate cap 0) ∈ calls) := by
  constructor
  · intro et ne cap
    refine ⟨_, rfl, rfl, rfl, rfl, rfl, rfl, ?_⟩
    simp [construct, Resize, resizeGPU, resCalls, countUploads, isUpload]
  · intro cap
    refine ⟨_, _, rfl, ?_, rfl, rfl, ?_, ?_⟩
    · show some (List.replicate (1 * cap) (0 : Int))
        = some (List.replicate cap 0)
      rw [one_mul]
    · simp [countUploads, isUpload, List.filter]
    · show GLCall.texImage2D cap (List.replicate cap 0) ∈
        [GLCall.createTexture, GLCall.bindTexture, GLCall.texParameteri,
         GLCall.texParameteri, GLCall.texParameteri, GLCall.texParameteri]
        ++ [GLCall.texImage2D cap (Option.getD (some (List.replicate (1 * cap) (0 : Int))) [])]
      simp [one_mul]

/-- Claim C5: `UploadDirtyData` uploads once (via `UploadData`) and clears
the dirty flag when dirty; it makes no GL call and changes no state when
clean; two consecutive calls with no intervening write perform exactly one
upload when starting dirty, the second call emitting no calls at all. -/
theorem C5_dirty_upload (b : DynBuf) :
    (b.dirty = true →
      UploadDirtyData b = ({ b with dirty := false }, (UploadData b).2) ∧
        countUploads (UploadData b).2 = 1) ∧
    (b.dirty = false → UploadDirtyData b = (b, [])) ∧
    countUploads ((UploadDirtyData b).2
        ++ (UploadDirtyData (UploadDirtyData b).1).2)
      = (if b.dirty then 1 else 0) ∧
    (UploadDirtyData (UploadDirtyData b).1).2 = [] := by
  cases hd : b.dirty <;> cases hb : b.bufferType <;>
    simp [UploadDirtyData, UploadData, countUploads, isUpload, hd, hb]

/-- Witness for C5: instantiated at a concrete dirty Buffer-mode buffer. -/
theorem C5_witness :
    UploadDirtyData { bufEx with dirty := true }
        = ({ { bufEx with dirty := true } with dirty := false },
           (UploadData { bufEx with dirty := true }).2) ∧
      countUploads (UploadData { bufEx with dirty := true }).2 = 1 :=
  (C5_dirty_upload { bufEx with dirty := true }).1 (by decide)

/-- Claim C6: constructing in LookupTexture mode with any element type
other than Byte or any arity other than 1 throws the fail-fast assertion
during construction (in particular `Construct(Byte, 2, 8, LookupTexture)`),
and `BindAsInstanceAttribute` on any LookupTexture-backed buffer throws
before issuing any GL call. -/
theorem C6_mode_errors :
    (∀ et ne cap, (et ≠ ElementType.byte ∨ ne ≠ 1) →
      isThrown (construct et ne cap (some BufferType.texture)) = true) ∧
    isThrown (construct .byte 2 8 (some BufferType.texture)) = true ∧
    (∀ b, b.bufferType = BufferType.texture →
      BindAsInstanceAttribute b = GLResult.thrown b []) := by
  refine ⟨?_, by decide, ?_⟩
  · intro et ne cap h
    cases et with
    | float32 => simp [construct, Resize, resizeGPU, isThrown]
    | byte =>
        have hne : ne ≠ 1 := by
          rcases h with h | h
          · exact absurd rfl h
          · exact h
        simp [construct, Resize, resizeGPU, isThrown, hne]
  · intro b hb
    simp [BindAsInstanceAttribute, hb]

/-- Witness for C6: a Float32 lookup-texture construction throws, and
binding a texture-backed buffer as an instance attribute throws. -/
theorem C6_witness :
    isThrown (construct .float32 1 4 (some BufferType.texture)) = true ∧
      BindAsInstanceAttribute texEx = GLResult.thrown texEx [] :=
  ⟨C6_mode_errors.1 .float32 1 4 (Or.inl (by decide)),
   C6_mode_errors.2.2 texEx (by decide)⟩

/-- Claim C10: omitting the buffer-type argument (undefined in JS) makes
the constructor default to Buffer mode, with a result identical to passing
`Buffer` explicitly. -/
theorem C10_default_mode (et : ElementType) (ne cap : Nat) :
    construct et ne cap none = construct et ne cap (some BufferType.buffer) :=
  rfl

/-- Claim C3, counterexample: at capacity 4 and target 2^31 = 2147483648
the 32-bit loop of `ResizeToFitNextPow2` never exits — the shifted value
wraps through -2^31 to the fixed point 0 and the condition stays true at
every iteration, for every fuel bound — although in exact arithmetic the
claimed k exists (4 * 2 ^ 29 ≥ 2^31).  The operation therefore never sets
the claimed capacity C * 2 ^ k, refuting the claim for arbitrary
targets. -/
theorem C3_counterexample :
    ResizeToFitNextPow2Int32 buf4 2147483648 = none ∧
      (∀ fuel : Nat, shiftLoop fuel 2147483648 4 = none) ∧
      (2147483648 : Nat) ≤ 4 * 2 ^ 29 := by
  have hv4 : ∀ j : Nat, wrap32 (4 * 2 ^ j) < 2147483648 := by
    intro j
    rcases Nat.lt_or_ge j 29 with hj | hj
    · have h2 : (2 : Int) ^ j ≤ 2 ^ 28 :=
        pow_le_pow_right₀ (by norm_num) (by omega)
      have h0 : (0 : Int) ≤ 2 ^ j := by positivity
      rw [wrap32_fixed _ (by omega) (by omega)]
      omega
    · rcases Nat.lt_or_ge j 30 with hj2 | hj2
      · have hj29 : j = 29 := by omega
        subst hj29
        decide
      · obtain ⟨i, rfl⟩ : ∃ i, j = 30 + i := ⟨j - 30, by omega⟩
        have harg : (4 : Int) * 2 ^ (30 + i) = 4294967296 * 2 ^ i := by
          rw [pow_add, ← mul_assoc]
          norm_num
        rw [harg]
        have h0 : (0 : Int) ≤ 2 ^ i := by positivity
        have hz : wrap32 (4294967296 * 2 ^ i) = 0 := by
          unfold wrap32
          omega
        rw [hz]
        norm_num
  have hdiv : ∀ fuel : Nat, shiftLoop fuel 2147483648 4 = none := fun fuel =>
    shiftLoop_diverges 2147483648 fuel 4 hv4 (by norm_num) (by norm_num)
  refine ⟨?_, hdiv, by norm_num⟩
  unfold ResizeToFitNextPow2Int32
  have hc : ((buf4.nbEntries : Nat) : Int) = 4 := by decide
  have ht : ((2147483648 : Nat) : Int) = 2147483648 := by decide
  rw [hc, ht, hdiv 64]
  rfl

/-- Claim C3 (amended): with positive current capacity C, for every target
reachable without 32-bit overflow (some j has target ≤ C * 2 ^ j and
C * 2 ^ j < 2^31), the bit-faithful 32-bit loop terminates and agrees with
the idealized doubling model, and `ResizeToFitNextPow2` is a no-op (state
and trace unchanged) when the target is at most C, and otherwise grows the
capacity to `C * 2 ^ k` for the smallest `k` with `C * 2 ^ k >= target`
(repeated doubling of the current capacity).  For targets beyond that
range the 32-bit shift wraps to negative and then zero and the loop never
terminates (see the counterexample). -/
theorem C3_doubling_growth (b : DynBuf) (t : Nat) (hC : 0 < b.nbEntries)
    (hreach : ∃ j, t ≤ b.nbEntries * 2 ^ j ∧
      b.nbEntries * 2 ^ j < 2 ^ 31) :
    ResizeToFitNextPow2Int32 b t = some (ResizeToFitNextPow2 b t) ∧
    (t ≤ b.nbEntries → ResizeToFitNextPow2 b t = GLResult.ok b []) ∧
    (b.nbEntries < t →
      ∃ k, (resState (ResizeToFitNextPow2 b t)).nbEntries
          = b.nbEntries * 2 ^ k ∧
        t ≤ b.nbEntries * 2 ^ k ∧
        ∀ j, j < k → b.nbEntries * 2 ^ j < t) := by
  refine ⟨RTFNP2Int32_agrees b t hC hreach, ?_, ?_⟩
  · intro h
    have hfit : fitLoop t b.nbEntries = b.nbEntries := fitLoop_of_le _ _ h
    simp [ResizeToFitNextPow2, hfit]
  · intro h
    obtain ⟨hle, k, hk, hmin⟩ := fitLoop_spec t t b.nbEntries (by omega) hC
    have hgt : fitLoop t b.nbEntries > b.nbEntries := by omega
    have hr : ResizeToFitNextPow2 b t = Resize b (fitLoop t b.nbEntries) := by
      simp [ResizeToFitNextPow2, hgt]
    refine ⟨k, ?_, hk ▸ hle, hmin⟩
    rw [hr, Resize_nbEntries, hk]

/-- Witness for C3: from capacity 4 (Scenario A buffer), target 3 is a
no-op, and target 10 — reachable since 10 ≤ 4 * 2 ^ 2 = 16 < 2^31 — makes
the 32-bit loop terminate in agreement with the doubling model and grows
to 4 * 2 ^ k with k minimal (k = 2, capacity 16). -/
theorem C3_witness :
    ResizeToFitNextPow2Int32 buf4 10 = some (ResizeToFitNextPow2 buf4 10) ∧
      ResizeToFitNextPow2 buf4 3 = GLResult.ok buf4 [] ∧
      ∃ k, (resState (ResizeToFitNextPow2 buf4 10)).nbEntries
          = buf4.nbEntries * 2 ^ k ∧
        10 ≤ buf4.nbEntries * 2 ^ k ∧
        ∀ j, j < k → buf4.nbEntries * 2 ^ j < 10 :=
  ⟨(C3_doubling_growth buf4 10 (by decide) ⟨2, by decide, by decide⟩).1,
   (C3_doubling_growth buf4 3 (by decide) ⟨0, by decide, by decide⟩).2.1
     (by decide),
   (C3_doubling_growth buf4 10 (by decide) ⟨2, by decide, by decide⟩).2.2
     (by decide)⟩

/-- Claim C4: a growth resize preserves the old mirror contents verbatim as
a prefix of the new mirror (in every backing mode, including the states a
texture-mode assertion throw leaves behind). -/
theorem C4_prefix_preservation (b : DynBuf) (n : Nat) (old : List Int)
    (hold : b.cpuArray = some old)
    (hlen : old.length = b.nbElements * b.nbEntries)
    (hgrow : b.nbEntries < n) :
    ∃ arr, (resState (Resize b n)).cpuArray = some arr ∧
      arr.take old.length = old := by
  have hle : old.length ≤ b.nbElements * n := by
    rw [hlen]
    exact Nat.mul_le_mul_left _ (le_of_lt hgrow)
  exact ⟨_, Resize_cpuArray_of_fits b n old hold hle, List.take_left old _⟩

/-- Witness for C4: growing a concrete capacity-2 buffer holding
[1,2,3,4,5,6] to capacity 4 keeps those six elements as the prefix. -/
theorem C4_witness :
    ∃ arr, (resState (Resize bufEx 4)).cpuArray = some arr ∧
      arr.take ([1, 2, 3, 4, 5, 6] : List Int).length = [1, 2, 3, 4, 5, 6] :=
  C4_prefix_preservation bufEx 4 [1, 2, 3, 4, 5, 6]
    (by decide) (by decide) (by decide)

/-- Method `UploadData` mutates no field of the buffer. -/
lemma UploadData_fst (b : DynBuf) : (UploadData b).1 = b := by
  cases hb : b.bufferType <;> simp [UploadData, hb]

/-- Method `BindAsInstanceAttribute` leaves the buffer state unchanged whether it
returns or throws. -/
lemma Bind_state (b : DynBuf) :
    resState (BindAsInstanceAttribute b) = b := by
  by_cases h : b.bufferType = BufferType.buffer <;>
    simp [BindAsInstanceAttribute, h, resState]

/-- Claim C7: the invariant `mirror.length = elementsPerEntry * capacity`
holds for every buffer construction returns, and is preserved (for buffers
of positive capacity) by every call of the public surface, including the
exit states of calls that throw. -/
theorem C7_mirror_length :
    (∀ et ne cap bt b calls,
        construct et ne cap bt = GLResult.ok b calls →
        mirrorLenOK b = true) ∧
    (∀ b, mirrorLenOK b = true → 0 < b.nbEntries →
      (∀ t, mirrorLenOK (resState (ResizeToFitNextPow2 b t)) = true) ∧
      mirrorLenOK (UploadData b).1 = true ∧
      mirrorLenOK (UploadDirtyData b).1 = true ∧
      mirrorLenOK (resState (BindAsInstanceAttribute b)) = true) := by
  constructor
  · intro et ne cap bt b calls h
    have h1 : (resState (construct et ne cap bt)).cpuArray
        = some (List.replicate (ne * cap) (0 : Int)) :=
      Resize_cpuArray_of_none _ cap rfl
    have h2 : (resState (construct et ne cap bt)).nbElements = ne :=
      Resize_nbElements _ cap
    have h3 : (resState (construct et ne cap bt)).nbEntries = cap :=
      Resize_nbEntries _ cap
    have hres : mirrorLenOK (resState (construct et ne cap bt)) = true := by
      simp [mirrorLenOK, h1, h2, h3]
    rw [h] at hres
    simpa [resState] using hres
  · intro b hb hpos
    obtain ⟨old, hc, hlen⟩ :
        ∃ old, b.cpuArray = some old ∧
          old.length = b.nbElements * b.nbEntries := by
      cases hc : b.cpuArray with
      | none => simp [mirrorLenOK, hc] at hb
      | some old =>
          refine ⟨old, rfl, ?_⟩
          simpa [mirrorLenOK, hc] using hb
    refine ⟨?_, ?_, ?_, ?_⟩
    · intro t
      rcases RTFNP2_cases b t with hr | hr <;> rw [hr]
      · have hge := fitLoop_ge_self t b.nbEntries
        have hle : old.length ≤ b.nbElements * fitLoop t b.nbEntries := by
          rw [hlen]
          exact Nat.mul_le_mul_left _ hge
        have h1 := Resize_cpuArray_of_fits b (fitLoop t b.nbEntries) old hc hle
        have h2 := Resize_nbElements b (fitLoop t b.nbEntries)
        have h3 := Resize_nbEntries b (fitLoop t b.nbEntries)
        simp only [mirrorLenOK, h1, h2, h3, List.length_append,
          List.length_drop, List.length_replicate]
        simp only [beq_iff_eq]
        omega
      · simpa [resState] using hb
    · rw [UploadData_fst]
      exact hb
    · unfold UploadDirtyData
      cases hd : b.dirty <;> simp [hd]
      · simpa [mirrorLenOK, hc] using hb
      · simpa [mirrorLenOK, hc] using hb
    · rw [Bind_state]
      exact hb

/-- Witness for C7: the invariant survives a doubling growth to capacity 16
and a dirty-flag-clearing upload on the Scenario A buffer. -/
theorem C7_witness :
    mirrorLenOK (resState (ResizeToFitNextPow2 buf4 10)) = true ∧
      mirrorLenOK (UploadDirtyData buf4).1 = true :=
  ⟨(C7_mirror_length.2 buf4 (by decide) (by decide)).1 10,
   (C7_mirror_length.2 buf4 (by decide) (by decide)).2.2.1⟩

/-- One public call never decreases the capacity. -/
lemma applyOp_nbEntries_mono (b : DynBuf) (op : PublicOp) :
    b.nbEntries ≤ (applyOp b op).nbEntries := by
  cases op with
  | resizeFit t =>
      show b.nbEntries ≤ (resState (ResizeToFitNextPow2 b t)).nbEntries
      rcases RTFNP2_cases b t with hr | hr <;> rw [hr]
      · rw [Resize_nbEntries]
        exact fitLoop_ge_self t b.nbEntries
      · exact le_refl _
  | upload =>
      show b.nbEntries ≤ (UploadData b).1.nbEntries
      rw [UploadData_fst]
  | uploadDirty =>
      show b.nbEntries ≤ (UploadDirtyData b).1.nbEntries
      unfold UploadDirtyData
      cases hd : b.dirty <;> simp [hd]
  | bindAttr =>
      show b.nbEntries ≤ (resState (BindAsInstanceAttribute b)).nbEntries
      rw [Bind_state]

/-- Claim C8: over any sequence of public-surface calls on a buffer of
positive capacity, the capacity is monotonically non-decreasing. -/
theorem C8_capacity_monotonic (b : DynBuf) (ops : List PublicOp)
    (hC : 0 < b.nbEntries) :
    b.nbEntries ≤ (ops.foldl applyOp b).nbEntries := by
  induction ops generalizing b with
  | nil => simp
  | cons op rest ih =>
      have h1 := applyOp_nbEntries_mono b op
      have h2 := ih (applyOp b op) (by omega)
      simp only [List.foldl_cons]
      omega

/-- Witness for C8: a growth then an upload on the Scenario A buffer never
shrink the capacity. -/
theorem C8_witness :
    buf4.nbEntries ≤
      (([PublicOp.resizeFit 10, PublicOp.uploadDirty]).foldl
        applyOp buf4).nbEntries :=
  C8_capacity_monotonic buf4 [PublicOp.resizeFit 10, PublicOp.uploadDirty]
    (by decide)

/-- Claim C9: a direct shrinking `Resize(n)` with `0 < n < capacity` throws
in the prefix-copy step (`TypedArray.set` RangeError) and is not atomic:
the buffer is left with capacity `n`, a fresh zero-filled mirror of the
smaller size, no GL call issued, and the previous GPU resource untouched
(`gpuBytes` unchanged in the exit record), whose size differs from the new
required byte size, so the mirror/GPU size-match invariant is broken. -/
theorem C9_shrink_resize_throws (b : DynBuf) (n : Nat) (old : List Int)
    (hold : b.cpuArray = some old)
    (hlen : old.length = b.nbElements * b.nbEntries)
    (hne : 0 < b.nbElements) (hn : 0 < n) (hlt : n < b.nbEntries) :
    Resize b n = GLResult.thrown
      { b with
        nbEntries := n,
        cpuArray := some (List.replicate (b.nbElements * n) 0),
        nbElementBytes := elementBytes b.elementType,
        nbBytes := elementBytes b.elementType * b.nbElements * n } [] ∧
    elementBytes b.elementType * b.nbElements * n
      ≠ elementBytes b.elementType * b.nbElements * b.nbEntries := by
  have hmul : b.nbElements * n < b.nbElements * b.nbEntries :=
    mul_lt_mul_of_pos_left hlt hne
  constructor
  · unfold Resize
    rw [hold]
    simp only [List.length_replicate]
    rw [if_neg (by omega)]
  · have heb : 0 < elementBytes b.elementType := by
      cases b.elementType <;> simp [elementBytes]
    have h2 := mul_lt_mul_of_pos_left hmul heb
    rw [Nat.mul_assoc, Nat.mul_assoc]
    omega

/-- Witness for C9: shrinking the concrete capacity-2 buffer to capacity 1
throws mid-way, leaving the half-updated state. -/
theorem C9_witness :
    Resize bufEx 1 = GLResult.thrown
      { bufEx with
        nbEntries := 1,
        cpuArray := some (List.replicate (bufEx.nbElements * 1) 0),
        nbElementBytes := elementBytes bufEx.elementType,
        nbBytes := elementBytes bufEx.elementType * bufEx.nbElements * 1 } [] ∧
    elementBytes bufEx.elementType * bufEx.nbElements * 1
      ≠ elementBytes bufEx.elementType * bufEx.nbElements * bufEx.nbEntries :=
  C9_shrink_resize_throws bufEx 1 [1, 2, 3, 4, 5, 6]
    (by decide) (by decide) (by decide) (by decide) (by decide)

end WebGLDyn
